import Mathlib

/-!
Shallow embedding of the `@reach/combobox` interaction state machine
(`src/packages/combobox/src/index.js`): the state chart, the data reducer,
the machine driver, the keyboard controller, the controlled-value sync of
`ComboboxInput`, and the `makeHash` option-identity function.

JS values are modelled as follows: strings are `String`; a value that may be
`null`/`undefined` is `Option String`; a function that `throw`s is `Option`-
valued, with `none` for the throw.  States and action types are the string
constants of the source.
-/

namespace Combobox

/-! ## States (source lines 34-44) -/

def IDLE : String := "IDLE"

def SUGGESTING : String := "SUGGESTING"

def NAVIGATING : String := "NAVIGATING"

def INTERACTING : String := "INTERACTING"

/-! ## Action types (source lines 50-71) -/

def CLEAR : String := "CLEAR"

def CHANGE : String := "CHANGE"

def NAVIGATE : String := "NAVIGATE"

def SELECT_WITH_KEYBOARD : String := "SELECT_WITH_KEYBOARD"

def SELECT_WITH_CLICK : String := "SELECT_WITH_CLICK"

def ESCAPE : String := "ESCAPE"

def BLUR : String := "BLUR"

def INTERACT : String := "INTERACT"

/-- The four states of the chart. -/
def allStates : List String := [IDLE, SUGGESTING, NAVIGATING, INTERACTING]

/-- The eight action kinds the source defines. -/
def allActionTypes : List String :=
  [CLEAR, CHANGE, NAVIGATE, SELECT_WITH_KEYBOARD, SELECT_WITH_CLICK, ESCAPE, BLUR, INTERACT]

/-! ## Data record

The reducer's data: `{ value, navigationValue, lastActionType }`.  `value`
is `Option String` because the JS value can become `null` (e.g. a
`SELECT_WITH_KEYBOARD` step copies `navigationValue`, which may be null,
into `value`).  `lastActionType` is absent (`none`) in `defaultData`. -/

structure Data where
  value : Option String
  navigationValue : Option String
  lastActionType : Option String
deriving DecidableEq, Repr

/-- `defaultData` of the `Combobox` component (source lines 197-203):
`{ value: "", navigationValue: null }`, no `lastActionType` field yet. -/
def defaultData : Data :=
  { value := some "", navigationValue := none, lastActionType := none }

/-- A dispatched action object: a `type` string plus the optional `value`
payload (`none` models an absent/null payload). -/
structure RawAction where
  type : String
  value : Option String
deriving DecidableEq, Repr

/-! ## The reducer (source lines 119-163)

`reducer(data, action)` switches on `action.type`; the `default` branch
throws `Unknown action`, modelled as `none`. -/

def reducer (data : Data) (action : RawAction) : Option Data :=
  let nextState : Data := { data with lastActionType := some action.type }
  if action.type = CHANGE then
    some { nextState with navigationValue := none, value := action.value }
  else if action.type = NAVIGATE then
    some { nextState with navigationValue := action.value }
  else if action.type = CLEAR then
    some { nextState with value := some "", navigationValue := none }
  else if action.type = BLUR ∨ action.type = ESCAPE then
    some { nextState with navigationValue := none }
  else if action.type = SELECT_WITH_CLICK then
    some { nextState with value := action.value, navigationValue := none }
  else if action.type = SELECT_WITH_KEYBOARD then
    some { nextState with value := data.navigationValue, navigationValue := none }
  else if action.type = INTERACT then
    some { nextState with navigationValue := none }
  else
    none

/-! ## Reference reducer, written from the spec's words (§4.2)

A typed action mirror of the eight recognized kinds, and the pure
`(data, action) -> data'` rules exactly as the spec states them. -/

inductive SpecAction where
  | change (v : String)
  | navigate (v : Option String)
  | clear
  | selectWithKeyboard
  | selectWithClick (v : String)
  | escape
  | blur
  | interact
deriving DecidableEq, Repr

/-- The action-type string of a typed action. -/
def SpecAction.kind : SpecAction → String
  | .change _ => CHANGE
  | .navigate _ => NAVIGATE
  | .clear => CLEAR
  | .selectWithKeyboard => SELECT_WITH_KEYBOARD
  | .selectWithClick _ => SELECT_WITH_CLICK
  | .escape => ESCAPE
  | .blur => BLUR
  | .interact => INTERACT

/-- The action object the source dispatches for a typed action: `CLEAR`,
`SELECT_WITH_KEYBOARD`, `ESCAPE`, `BLUR` and `INTERACT` are dispatched with
no payload; `CHANGE`, `NAVIGATE` and `SELECT_WITH_CLICK` carry `{ value }`. -/
def SpecAction.raw : SpecAction → RawAction
  | .change v => { type := CHANGE, value := some v }
  | .navigate v => { type := NAVIGATE, value := v }
  | .clear => { type := CLEAR, value := none }
  | .selectWithKeyboard => { type := SELECT_WITH_KEYBOARD, value := none }
  | .selectWithClick v => { type := SELECT_WITH_CLICK, value := some v }
  | .escape => { type := ESCAPE, value := none }
  | .blur => { type := BLUR, value := none }
  | .interact => { type := INTERACT, value := none }

/-- Reference definition of the reducer, following the spec's rules word for
word (`lastActionType` records the applied action kind, per §3). -/
def reducerSpec (data : Data) (a : SpecAction) : Data :=
  let base : Data := { data with lastActionType := some a.kind }
  match a with
  | .change v => { base with value := some v, navigationValue := none }
  | .navigate v => { base with navigationValue := v }
  | .clear => { base with value := some "", navigationValue := none }
  | .blur => { base with navigationValue := none }
  | .escape => { base with navigationValue := none }
  | .selectWithClick v => { base with value := some v, navigationValue := none }
  | .selectWithKeyboard => { base with value := data.navigationValue, navigationValue := none }
  | .interact => { base with navigationValue := none }

/-! ## State chart (source lines 74-117) and machine driver (lines 659-674) -/

/-- The `stateChart.states[state].on[action]` lookup: `some next` when the
action is listed under the state, `none` when absent (in JS the lookup
yields `undefined`, which the driver treats as illegal). -/
def stateChart (state : String) (action : String) : Option String :=
  if state = IDLE then
    if action = BLUR then some IDLE
    else if action = CLEAR then some IDLE
    else if action = CHANGE then some SUGGESTING
    else if action = NAVIGATE then some NAVIGATING
    else none
  else if state = SUGGESTING then
    if action = CHANGE then some SUGGESTING
    else if action = NAVIGATE then some NAVIGATING
    else if action = CLEAR then some IDLE
    else if action = ESCAPE then some IDLE
    else if action = BLUR then some IDLE
    else if action = SELECT_WITH_CLICK then some IDLE
    else if action = INTERACT then some INTERACTING
    else none
  else if state = NAVIGATING then
    if action = CHANGE then some SUGGESTING
    else if action = CLEAR then some IDLE
    else if action = BLUR then some IDLE
    else if action = ESCAPE then some IDLE
    else if action = NAVIGATE then some NAVIGATING
    else if action = SELECT_WITH_KEYBOARD then some IDLE
    else if action = SELECT_WITH_CLICK then some IDLE
    else if action = INTERACT then some INTERACTING
    else none
  else if state = INTERACTING then
    if action = CHANGE then some SUGGESTING
    else if action = BLUR then some IDLE
    else if action = ESCAPE then some IDLE
    else if action = NAVIGATE then some NAVIGATING
    else none
  else
    none

/-- The `transition` closure of `useReducerMachine`: look the action up in
the chart, throw (`none`) when it is not listed (all listed next-states are
non-empty strings, hence truthy in JS), otherwise dispatch the action object
to the reducer and adopt the next state.  The result pairs the next state
with the next data. -/
def transition (state : String) (data : Data) (action : String) (payload : Option String) :
    Option (String × Data) :=
  match stateChart state action with
  | none => none
  | some nextState =>
    (reducer data { type := action, value := payload }).map (fun d => (nextState, d))

/-- The legal-action table as the spec's §3 states it, one set per state. -/
def legalActions (state : String) : List String :=
  if state = IDLE then [BLUR, CLEAR, CHANGE, NAVIGATE]
  else if state = SUGGESTING then
    [CHANGE, NAVIGATE, CLEAR, ESCAPE, BLUR, SELECT_WITH_CLICK, INTERACT]
  else if state = NAVIGATING then
    [CHANGE, CLEAR, BLUR, ESCAPE, NAVIGATE, SELECT_WITH_KEYBOARD, SELECT_WITH_CLICK, INTERACT]
  else if state = INTERACTING then [CHANGE, BLUR, ESCAPE, NAVIGATE]
  else []

/-! ## Keyboard controller (`useKeyDown`, source lines 523-630)

Each key case is modelled as a function of the values the handler reads:
the option registry (`optionsRef.current`), the current state, the current
`navigationValue` and the autocomplete flag.  The result is `none` when the
handler issues no transition, and `some payload` when it issues
`NAVIGATE` with that payload (`enterKey` below returns the value passed to
`onSelect` and committed by `SELECT_WITH_KEYBOARD`). -/

/-- `options.indexOf(navigationValue)`: the index of the first occurrence,
`-1` when the value is null or absent from the registry. -/
def jsIndexOf (options : List String) (v : Option String) : Int :=
  match v with
  | none => -1
  | some s =>
    match options.findIdx? (fun o => o == s) with
    | some i => (i : Int)
    | none => -1

/-- The `ArrowDown` case of `handleKeyDown` (source lines 536-572).  Payload
values are looked up with `get?`; every reachable lookup is in bounds. -/
def arrowDown (options : List String) (state : String) (navigationValue : Option String)
    (autocomplete : Bool) : Option (Option String) :=
  if options.length = 0 then none
  else if state = IDLE then some none
  else
    let index := jsIndexOf options navigationValue
    let atBottom := index = (options.length : Int) - 1
    if atBottom then
      if autocomplete then some none
      else some (options.get? 0)
    else some (options.get? ((index + 1) % (options.length : Int)).toNat)

/-- The `ArrowUp` case of `handleKeyDown` (source lines 574-612). -/
def arrowUp (options : List String) (state : String) (navigationValue : Option String)
    (autocomplete : Bool) : Option (Option String) :=
  if options.length = 0 then none
  else if state = IDLE then some none
  else
    let index := jsIndexOf options navigationValue
    if index = 0 then
      if autocomplete then some none
      else some (options.get? (options.length - 1))
    else if index = -1 then
      some (if options.length ≠ 0 then options.get? (options.length - 1) else none)
    else
      some (options.get? ((index - 1 + (options.length : Int)) % (options.length : Int)).toNat)

/-- The `Enter` case of `handleKeyDown` (source lines 619-627): `some v`
means `onSelect` is invoked once with `v` and `SELECT_WITH_KEYBOARD` is
issued; `none` means no selection and no transition. -/
def enterKey (state : String) (navigationValue : Option String) : Option String :=
  if state = NAVIGATING ∧ navigationValue ≠ none then navigationValue else none

/-! ## Claim-side keyboard reference definitions (from the claims' words)

The claims describe the arrow keys in terms of the position of
`navigationValue` in the registry (a `Nat` index, absent meaning the JS
`-1`), with wraparound arithmetic on `Nat` and total lookups. -/

/-- The position of the current `navigationValue` in the registry,
per the claims: `none` when the value is null or absent. -/
def registryIndex (registry : List String) (navigationValue : Option String) : Option Nat :=
  navigationValue.bind fun v => registry.findIdx? (fun o => o == v)

/-- ArrowDown exactly as claim C3 words it.  The absent-index case is the
claim's `registry[(-1 + 1) % len] = registry[0]`. -/
def arrowDownSpec (registry : List String) (state : String) (navigationValue : Option String)
    (autocomplete : Bool) : Option (Option String) :=
  if registry.isEmpty then none
  else if state = IDLE then some none
  else
    match registryIndex registry navigationValue with
    | some i =>
      if i = registry.length - 1 then
        if autocomplete then some none else some (some (registry.getD 0 ""))
      else some (some (registry.getD ((i + 1) % registry.length) ""))
    | none => some (some (registry.getD 0 ""))

/-- ArrowUp exactly as claim C4 words it. -/
def arrowUpSpec (registry : List String) (state : String) (navigationValue : Option String)
    (autocomplete : Bool) : Option (Option String) :=
  if registry.isEmpty then none
  else if state = IDLE then some none
  else
    match registryIndex registry navigationValue with
    | none => some (some (registry.getD (registry.length - 1) ""))
    | some i =>
      if i = 0 then
        if autocomplete then some none
        else some (some (registry.getD (registry.length - 1) ""))
      else some (some (registry.getD ((i - 1 + registry.length) % registry.length) ""))

/-! ## Controlled-value sync of `ComboboxInput` (source lines 289-308) -/

/-- The characters ECMAScript `String.prototype.trim` strips: the
WhiteSpace production (TAB, VT, FF, ZWNBSP and the Unicode Space_Separator
category: SP, NBSP, U+1680, U+2000-U+200A, U+202F, U+205F, U+3000) together
with the LineTerminator production (LF, CR, LS, PS). -/
def isJsWhitespace (c : Char) : Bool :=
  let n := c.toNat
  n = 0x09 || n = 0x0A || n = 0x0B || n = 0x0C || n = 0x0D || n = 0x20 ||
    n = 0xA0 || n = 0x1680 || (0x2000 ≤ n && n ≤ 0x200A) || n = 0x2028 ||
    n = 0x2029 || n = 0x202F || n = 0x205F || n = 0x3000 || n = 0xFEFF

/-- The test `value.trim() === ""` of `handleValueChange`: trimming strips
leading and trailing JS whitespace, so the trimmed string is empty exactly
when every character of the string is JS whitespace. -/
def trimIsEmpty (value : String) : Bool :=
  value.data.all isJsWhitespace

/-- `handleValueChange` of `ComboboxInput` (source lines 295-301): an empty
or whitespace-only value dispatches `CLEAR` with no payload, anything else
dispatches `CHANGE` with the value as payload. -/
def handleValueChange (value : String) : RawAction :=
  if trimIsEmpty value then { type := CLEAR, value := none }
  else { type := CHANGE, value := some value }

/-- The controlled-value sync (source lines 289-308): when the input is
controlled (`controlledValue != null`) and the controlled value differs
from `data.value`, `handleValueChange(controlledValue)` is emitted
synchronously; otherwise nothing is emitted. -/
def controlledSync (data : Data) (controlledValue : Option String) : Option RawAction :=
  match controlledValue with
  | none => none
  | some cv => if some cv ≠ data.value then some (handleValueChange cv) else none

/-! ## Option identity (`makeHash`, source lines 683-694) -/

/-- JS `ToInt32`: wrap an integer to the signed 32-bit range. -/
def toInt32 (n : Int) : Int := (n + 2 ^ 31) % 2 ^ 32 - 2 ^ 31

/-- One iteration of the `makeHash` loop (source lines 688-691):
`hash = (hash << 5) - hash + char`, the shift wrapping to 32 bits, followed
by `hash = hash & hash`, which wraps the sum back to 32 bits. -/
def hashStep (hash : Int) (char : Nat) : Int :=
  toInt32 (toInt32 (hash * 2 ^ 5) - hash + (char : Int))

/-- `makeHash` (source lines 683-694): 0 for the empty string, otherwise
the loop over the characters.  `charCodeAt` is modelled by the character's
code point; the two agree on all basic-plane strings. -/
def makeHash (str : String) : Int :=
  if str.length = 0 then 0
  else str.data.foldl (fun hash c => hashStep hash c.toNat) 0

/-- The id of a rendered `ComboboxOption` (source line 459): `makeHash` of
the option's value, a function of the value alone — neither the option's
position nor the registry is an input. -/
def optionId (value : String) : Int := makeHash value

/-- The `aria-activedescendant` of `ComboboxInput` (source lines 353-355):
`navigationValue ? makeHash(navigationValue) : undefined`, where a JS
string is truthy exactly when it is non-empty. -/
def ariaActiveDescendant (navigationValue : Option String) : Option Int :=
  match navigationValue with
  | some v => if v ≠ "" then some (makeHash v) else none
  | none => none

/-! ## Guarded reachability (for the value-is-a-string invariant) -/

/-- Data records obtainable from `defaultData` by reducer steps whose
SelectWithKeyboard actions fire only when `navigationValue` is non-null —
the precondition the Enter guard of `useKeyDown` establishes. -/
inductive Reachable : Data → Prop where
  | init : Reachable defaultData
  | step {d d2 : Data} (a : SpecAction) (hr : Reachable d)
      (hguard : a = SpecAction.selectWithKeyboard → d.navigationValue ≠ none)
      (hstep : reducer d a.raw = some d2) : Reachable d2

/-! ## Helper lemmas -/

theorem jsIndexOf_eq_registryIndex (l : List String) (nav : Option String) :
    jsIndexOf l nav =
      match registryIndex l nav with
      | some i => (i : Int)
      | none => -1 := by
  rcases nav with _ | s
  · rfl
  · cases h : l.findIdx? (fun o => o == s) <;> simp [jsIndexOf, registryIndex, h]

theorem registryIndex_lt_length {l : List String} {nav : Option String} {i : Nat}
    (h : registryIndex l nav = some i) : i < l.length := by
  rcases nav with _ | s
  · simp [registryIndex] at h
  · simp only [registryIndex, Option.some_bind] at h
    obtain ⟨h1, -⟩ := List.findIdx?_eq_some_iff_getElem.mp h
    exact h1

theorem get?_eq_some_getD {l : List String} {i : Nat} (h : i < l.length) :
    l.get? i = some (l.getD i "") := by
  simp [List.get?_eq_getElem?, List.getD_eq_getElem?_getD, List.getElem?_eq_getElem h]

theorem isEmpty_false_of_length_ne_zero {l : List String} (h : l.length ≠ 0) :
    l.isEmpty = false := by
  cases l with
  | nil => exact absurd rfl h
  | cons hd tl => rfl

/-- C3: ArrowDown issues exactly the transition the claim describes: nothing
on an empty registry; `Navigate(null)` from Idle; from the last index,
`Navigate(null)` with autocomplete and `Navigate(registry[0])` without; and
`Navigate(registry[(index+1) % len])` in every other case, the absent index
`-1` included. -/
theorem arrowDown_matches_claim (options : List String) (state : String)
    (nav : Option String) (ac : Bool) :
    arrowDown options state nav ac = arrowDownSpec options state nav ac := by
  by_cases hlen : options.length = 0
  · have hemp : options.isEmpty = true := by
      cases options with
      | nil => rfl
      | cons hd tl => simp at hlen
    simp [arrowDown, arrowDownSpec, hlen, hemp]
  · have hpos : 0 < options.length := Nat.pos_of_ne_zero hlen
    have hemp : options.isEmpty = false := isEmpty_false_of_length_ne_zero hlen
    by_cases hstate : state = IDLE
    · simp [arrowDown, arrowDownSpec, hlen, hemp, hstate]
    · rcases hidx : registryIndex options nav with _ | i
      · have hne : ¬((-1 : Int) = (options.length : Int) - 1) := by omega
        have hmod : (((-1 : Int) + 1) % (options.length : Int)).toNat = 0 := by
          norm_num
        simp only [arrowDown, arrowDownSpec, jsIndexOf_eq_registryIndex, hidx, hlen, hemp,
          hstate, if_neg hne, hmod, if_false, Bool.false_eq_true, ite_false]
        rw [get?_eq_some_getD hpos]
      · have hbound : i < options.length := registryIndex_lt_length hidx
        by_cases hbot : i = options.length - 1
        · have hbotI : ((i : Nat) : Int) = (options.length : Int) - 1 := by omega
          simp only [arrowDown, arrowDownSpec, jsIndexOf_eq_registryIndex, hidx, hlen, hemp,
            hstate, if_pos hbotI, if_pos hbot, Bool.false_eq_true, ite_false]
          cases ac with
          | true => rfl
          | false =>
            simp only [Bool.false_eq_true, ite_false]
            rw [get?_eq_some_getD hpos]
        · have hbotI : ¬(((i : Nat) : Int) = (options.length : Int) - 1) := by omega
          have hlt : i + 1 < options.length := by omega
          have hmod : ((((i : Nat) : Int) + 1) % (options.length : Int)).toNat =
              (i + 1) % options.length := by
            rw [Nat.mod_eq_of_lt hlt, Int.emod_eq_of_lt (by omega) (by exact_mod_cast hlt)]
            omega
          simp only [arrowDown, arrowDownSpec, jsIndexOf_eq_registryIndex, hidx, hlen, hemp,
            hstate, if_neg hbotI, if_neg hbot, Bool.false_eq_true, ite_false]
          rw [hmod, get?_eq_some_getD (Nat.mod_lt _ hpos)]

/-- C4: ArrowUp issues exactly the transition the claim describes: nothing
on an empty registry; `Navigate(null)` from Idle; from index 0,
`Navigate(null)` with autocomplete and `Navigate(registry[len-1])` without;
`Navigate(registry[len-1])` when the navigation value is absent (index -1);
and `Navigate(registry[(index-1+len) % len])` otherwise. -/
theorem arrowUp_matches_claim (options : List String) (state : String)
    (nav : Option String) (ac : Bool) :
    arrowUp options state nav ac = arrowUpSpec options state nav ac := by
  by_cases hlen : options.length = 0
  · have hemp : options.isEmpty = true := by
      cases options with
      | nil => rfl
      | cons hd tl => simp at hlen
    simp [arrowUp, arrowUpSpec, hlen, hemp]
  · have hpos : 0 < options.length := Nat.pos_of_ne_zero hlen
    have hlast : options.length - 1 < options.length := by omega
    have hemp : options.isEmpty = false := isEmpty_false_of_length_ne_zero hlen
    by_cases hstate : state = IDLE
    · simp [arrowUp, arrowUpSpec, hlen, hemp, hstate]
    · rcases hidx : registryIndex options nav with _ | i
      · have hne0 : ¬((-1 : Int) = 0) := by omega
        simp only [arrowUp, arrowUpSpec, jsIndexOf_eq_registryIndex, hidx, hlen, hemp,
          hstate, if_neg hne0, Bool.false_eq_true, ite_false, ite_true]
        rw [get?_eq_some_getD hlast, if_pos hlen]
      · have hbound : i < options.length := registryIndex_lt_length hidx
        by_cases h0 : i = 0
        · have h0I : ((i : Nat) : Int) = 0 := by omega
          simp only [arrowUp, arrowUpSpec, jsIndexOf_eq_registryIndex, hidx, hlen, hemp,
            hstate, if_pos h0I, if_pos h0, Bool.false_eq_true, ite_false]
          cases ac with
          | true => rfl
          | false =>
            simp only [Bool.false_eq_true, ite_false]
            rw [get?_eq_some_getD hlast]
        · have h0I : ¬(((i : Nat) : Int) = 0) := by omega
          have h1I : ¬(((i : Nat) : Int) = -1) := by omega
          have hmod : ((((i : Nat) : Int) - 1 + (options.length : Int)) %
              (options.length : Int)).toNat = (i - 1 + options.length) % options.length := by
            rw [Int.add_emod_self, Nat.add_mod_right,
              Int.emod_eq_of_lt (by omega) (by omega), Nat.mod_eq_of_lt (by omega)]
            omega
          simp only [arrowUp, arrowUpSpec, jsIndexOf_eq_registryIndex, hidx, hlen, hemp,
            hstate, if_neg h0I, if_neg h1I, if_neg h0, Bool.false_eq_true, ite_false]
          rw [hmod, get?_eq_some_getD (Nat.mod_lt _ hpos)]

/-- C1: for every state S of the chart and every action kind A, the machine
driver's `transition(S, A)` succeeds exactly when A is in S's legal-action
set as the spec's table states it, and throws for every other (S, A) pair. -/
theorem transition_legality (S A : String) (d : Data) (p : Option String)
    (hS : S ∈ allStates) (hA : A ∈ allActionTypes) :
    (transition S d A p).isSome ↔ A ∈ legalActions S := by
  simp only [allStates, List.mem_cons, List.not_mem_nil, or_false] at hS
  simp only [allActionTypes, List.mem_cons, List.not_mem_nil, or_false] at hA
  rcases hS with rfl | rfl | rfl | rfl <;>
    rcases hA with rfl | rfl | rfl | rfl | rfl | rfl | rfl | rfl <;>
      simp [transition, stateChart, legalActions, reducer, IDLE, SUGGESTING, NAVIGATING,
        INTERACTING, CLEAR, CHANGE, NAVIGATE, SELECT_WITH_KEYBOARD, SELECT_WITH_CLICK,
        ESCAPE, BLUR, INTERACT]

/-- Witness for C1 at the concrete pair (Idle, Clear). -/
theorem transition_legality_witness :
    (transition IDLE defaultData CLEAR none).isSome ↔ CLEAR ∈ legalActions IDLE :=
  transition_legality IDLE CLEAR defaultData none (by decide) (by decide)

/-- C2: on every data record, the source reducer agrees with the reference
reducer written from the spec's rules for each recognized action, and throws
(`none`) on any unrecognized action kind. -/
theorem reducer_matches_spec (d : Data) (a : SpecAction) (t : String) (p : Option String)
    (h : t ∉ allActionTypes) :
    reducer d a.raw = some (reducerSpec d a) ∧ reducer d { type := t, value := p } = none := by
  constructor
  · cases a <;>
      simp [reducer, reducerSpec, SpecAction.raw, SpecAction.kind, CLEAR, CHANGE, NAVIGATE,
        SELECT_WITH_KEYBOARD, SELECT_WITH_CLICK, ESCAPE, BLUR, INTERACT]
  · simp only [allActionTypes, CLEAR, CHANGE, NAVIGATE, SELECT_WITH_KEYBOARD,
      SELECT_WITH_CLICK, ESCAPE, BLUR, INTERACT, List.mem_cons, List.not_mem_nil,
      or_false, not_or] at h
    simp [reducer, CLEAR, CHANGE, NAVIGATE, SELECT_WITH_KEYBOARD, SELECT_WITH_CLICK,
      ESCAPE, BLUR, INTERACT, h.1, h.2.1, h.2.2.1, h.2.2.2.1, h.2.2.2.2.1, h.2.2.2.2.2.1,
      h.2.2.2.2.2.2.1, h.2.2.2.2.2.2.2]

/-- Witness for C2 at the default data, the Clear action and the
unrecognized kind "BOGUS". -/
theorem reducer_matches_spec_witness :
    reducer defaultData SpecAction.clear.raw = some (reducerSpec defaultData SpecAction.clear) ∧
    reducer defaultData { type := "BOGUS", value := none } = none :=
  reducer_matches_spec defaultData SpecAction.clear "BOGUS" none (by decide)

/-- C6: for every prior data record and payload, the reducer's output has a
null `navigationValue` after any action of kind Clear, Blur, Escape,
SelectWithClick, SelectWithKeyboard or Interact. -/
theorem navigationValue_cleared (d : Data) (t : String) (p : Option String)
    (ht : t ∈ [CLEAR, BLUR, ESCAPE, SELECT_WITH_CLICK, SELECT_WITH_KEYBOARD, INTERACT]) :
    (reducer d { type := t, value := p }).map Data.navigationValue = some none := by
  simp only [List.mem_cons, List.not_mem_nil, or_false] at ht
  rcases ht with rfl | rfl | rfl | rfl | rfl | rfl <;>
    simp [reducer, CLEAR, CHANGE, NAVIGATE, SELECT_WITH_KEYBOARD, SELECT_WITH_CLICK,
      ESCAPE, BLUR, INTERACT]

/-- Witness for C6 at the default data and the Clear action. -/
theorem navigationValue_cleared_witness :
    (reducer defaultData { type := CLEAR, value := none }).map Data.navigationValue =
      some none :=
  navigationValue_cleared defaultData CLEAR none (by decide)

/-- C8: applying Clear, then Change "x", then Clear to any starting data
yields the same Data record (value, navigationValue and lastActionType
alike) as a single Clear. -/
theorem clear_change_clear_roundtrip (d : Data) :
    ((reducer d SpecAction.clear.raw).bind fun d1 =>
      (reducer d1 (SpecAction.change "x").raw).bind fun d2 =>
        reducer d2 SpecAction.clear.raw) = reducer d SpecAction.clear.raw := by
  simp [reducer, SpecAction.raw, CLEAR, CHANGE, NAVIGATE, SELECT_WITH_KEYBOARD,
    SELECT_WITH_CLICK, ESCAPE, BLUR, INTERACT]

/-- C5: on Enter, the selection callback is invoked exactly once with the
current navigation value and `SELECT_WITH_KEYBOARD` is issued if and only
if the state is Navigating and the navigation value is non-null; in every
other case — Navigating with a null navigation value included — Enter
performs no selection and no transition. -/
theorem enterKey_selects_iff (state : String) (nav : Option String) (v : String) :
    (enterKey state nav = some v ↔ (state = NAVIGATING ∧ nav = some v)) ∧
    enterKey NAVIGATING none = none := by
  refine ⟨?_, by simp [enterKey]⟩
  unfold enterKey
  rcases nav with _ | s
  · simp
  · by_cases hs : state = NAVIGATING <;> simp [hs]

/-- C7 counterexample: with `data.value = "x"` and the whitespace-only,
non-empty controlled value `" "`, the sync emits a single `CLEAR`, after
which `data.value` is `""` — not the controlled value `" "` — so the claim
that one action always restores `data.value = controlledValue` fails. -/
theorem controlledSync_whitespace_counterexample :
    controlledSync { value := some "x", navigationValue := none, lastActionType := none }
        (some " ") = some { type := CLEAR, value := none } ∧
    (reducer { value := some "x", navigationValue := none, lastActionType := none }
        { type := CLEAR, value := none }).map Data.value = some (some "") ∧
    (some "" : Option String) ≠ some " " := by
  refine ⟨by decide, by decide, by decide⟩

/-- C7 (amended): whenever the input is controlled and the controlled value
differs from `data.value`, the single emitted action (Clear when the value
is empty or whitespace-only, Change otherwise) makes `data.value` equal the
controlled value, provided the controlled value is empty or not
whitespace-only; a non-empty whitespace-only controlled value yields Clear
and `value = ""`, which still differs. -/
theorem controlledSync_converges (d : Data) (cv : String) (a : RawAction)
    (hcv : cv = "" ∨ trimIsEmpty cv = false)
    (hsync : controlledSync d (some cv) = some a) :
    (reducer d a).map Data.value = some (some cv) := by
  simp only [controlledSync] at hsync
  by_cases hne : some cv ≠ d.value
  · rw [if_pos hne] at hsync
    injection hsync with hsync
    subst hsync
    unfold handleValueChange
    rcases hcv with rfl | htrim
    · rw [if_pos (show trimIsEmpty "" = true from by decide)]
      simp [reducer, CLEAR, CHANGE, NAVIGATE]
    · rw [htrim]
      simp [reducer, CLEAR, CHANGE, NAVIGATE]
  · rw [if_neg hne] at hsync
    cases hsync

/-- Witness for C7 (amended) at the default data and the controlled value
`"y"`. -/
theorem controlledSync_converges_witness :
    (reducer defaultData (handleValueChange "y")).map Data.value = some (some "y") :=
  controlledSync_converges defaultData "y" (handleValueChange "y")
    (Or.inr (by decide)) (by decide)

/-- C9 counterexample: with the non-null navigation value `""`, the active
descendant is absent (`""` is falsy in JS), not the hash of `""`. -/
theorem ariaActiveDescendant_empty_counterexample :
    ariaActiveDescendant (some "") = none ∧
    (none : Option Int) ≠ some (makeHash "") := by
  refine ⟨rfl, by simp⟩

/-- C9 (amended): an option's id is `makeHash` of its value — a function of
the value alone, so equal values yield equal ids regardless of position or
registry order — and the active descendant equals the hash of the
navigation value whenever that value is non-null and non-empty, and is
absent when it is null (or the empty string, by JS truthiness). -/
theorem optionId_and_activeDescendant (v : String) (h : v ≠ "") :
    optionId v = makeHash v ∧
    ariaActiveDescendant (some v) = some (makeHash v) ∧
    ariaActiveDescendant none = none := by
  refine ⟨rfl, ?_, rfl⟩
  simp [ariaActiveDescendant, h]

/-- Witness for C9 (amended) at the value "a". -/
theorem optionId_and_activeDescendant_witness :
    optionId "a" = makeHash "a" ∧
    ariaActiveDescendant (some "a") = some (makeHash "a") ∧
    ariaActiveDescendant none = none :=
  optionId_and_activeDescendant "a" (by decide)

/-- C10: every data record reachable from `defaultData` under the Enter
guard (SelectWithKeyboard only fires when `navigationValue` is non-null)
has a string `value`, never null; and without that guard, a
SelectWithKeyboard step from a null `navigationValue` sets `value` to
null. -/
theorem value_never_null (d e e2 : Data) (hr : Reachable d)
    (he : e.navigationValue = none)
    (hstep : reducer e SpecAction.selectWithKeyboard.raw = some e2) :
    (∃ s, d.value = some s) ∧ e2.value = none := by
  constructor
  · induction hr with
    | init => exact ⟨"", rfl⟩
    | step a hr2 hguard hstep2 ih =>
      cases a with
      | change v =>
        simp [reducer, SpecAction.raw, CLEAR, CHANGE, NAVIGATE, SELECT_WITH_KEYBOARD,
          SELECT_WITH_CLICK, ESCAPE, BLUR, INTERACT] at hstep2
        subst hstep2
        exact ⟨v, rfl⟩
      | navigate v =>
        simp [reducer, SpecAction.raw, CLEAR, CHANGE, NAVIGATE, SELECT_WITH_KEYBOARD,
          SELECT_WITH_CLICK, ESCAPE, BLUR, INTERACT] at hstep2
        subst hstep2
        exact ih
      | clear =>
        simp [reducer, SpecAction.raw, CLEAR, CHANGE, NAVIGATE, SELECT_WITH_KEYBOARD,
          SELECT_WITH_CLICK, ESCAPE, BLUR, INTERACT] at hstep2
        subst hstep2
        exact ⟨"", rfl⟩
      | selectWithKeyboard =>
        simp [reducer, SpecAction.raw, CLEAR, CHANGE, NAVIGATE, SELECT_WITH_KEYBOARD,
          SELECT_WITH_CLICK, ESCAPE, BLUR, INTERACT] at hstep2
        subst hstep2
        exact Option.ne_none_iff_exists'.mp (hguard rfl)
      | selectWithClick v =>
        simp [reducer, SpecAction.raw, CLEAR, CHANGE, NAVIGATE, SELECT_WITH_KEYBOARD,
          SELECT_WITH_CLICK, ESCAPE, BLUR, INTERACT] at hstep2
        subst hstep2
        exact ⟨v, rfl⟩
      | escape =>
        simp [reducer, SpecAction.raw, CLEAR, CHANGE, NAVIGATE, SELECT_WITH_KEYBOARD,
          SELECT_WITH_CLICK, ESCAPE, BLUR, INTERACT] at hstep2
        subst hstep2
        exact ih
      | blur =>
        simp [reducer, SpecAction.raw, CLEAR, CHANGE, NAVIGATE, SELECT_WITH_KEYBOARD,
          SELECT_WITH_CLICK, ESCAPE, BLUR, INTERACT] at hstep2
        subst hstep2
        exact ih
      | interact =>
        simp [reducer, SpecAction.raw, CLEAR, CHANGE, NAVIGATE, SELECT_WITH_KEYBOARD,
          SELECT_WITH_CLICK, ESCAPE, BLUR, INTERACT] at hstep2
        subst hstep2
        exact ih
  · simp [reducer, SpecAction.raw, CLEAR, CHANGE, NAVIGATE, SELECT_WITH_KEYBOARD,
      SELECT_WITH_CLICK, ESCAPE, BLUR, INTERACT] at hstep
    subst hstep
    exact he

/-- Witness for C10 at the initial data. -/
theorem value_never_null_witness :
    (∃ s, Combobox.defaultData.value = some s) ∧
    (Data.mk none none (some SELECT_WITH_KEYBOARD)).value = none :=
  value_never_null defaultData defaultData (Data.mk none none (some SELECT_WITH_KEYBOARD))
    Reachable.init rfl (by decide)

end Combobox
